import Mathlib

/-!
Shallow embedding of the `ChatGPT` class from `src/bin/chatGPT.js`
(the gpt-chat repository).  Pure state-manipulating fragments of the
JavaScript are translated into executable Lean definitions; JavaScript
objects used as configuration bags are modelled as ordered association
lists (JavaScript preserves string-key insertion order), and JavaScript
values that flow through the configuration are modelled by a small
inductive of the shapes that actually occur in the source (strings,
numbers, booleans, null, undefined, arrays of strings).
-/

namespace GptChat

/-- JavaScript values that occur in the configuration and as arguments in
the source.  Numbers are modelled as exact rationals (the source only
stores and copies numeric literals such as 1024, 1, 0.1, 0.6; it never
does float arithmetic on them along the modelled paths).  Arrays in the
source configuration hold only strings (the stop sequences). -/
inductive JsVal where
  | str (s : String)
  | num (q : Rat)
  | jsBool (b : Bool)
  | null
  | undef
  | arr (elems : List String)
deriving DecidableEq, Repr

/-- JavaScript truthiness for the modelled values. -/
def truthy : JsVal → Bool
  | .str s => s != ""
  | .num q => q != 0
  | .jsBool b => b
  | .null => false
  | .undef => false
  | .arr _ => true

/-- A JavaScript object used as a bag of properties: an ordered
association list of string keys to values (insertion order preserved,
as JavaScript does for string keys). -/
abbrev JsObj : Type := List (String × JsVal)

/-- Property read: `o[k]`, `none` when the property is absent. -/
def objGet (o : JsObj) (k : String) : Option JsVal :=
  (o.find? fun kv => kv.1 == k).map (fun kv => kv.2)

/-- `o.hasOwnProperty(k)`. -/
def objHasOwn (o : JsObj) (k : String) : Bool :=
  o.any fun kv => kv.1 == k

/-- Property write `o[k] = v`: updates the key in place when present
(keeping its position), otherwise appends it, as JavaScript does. -/
def objSet (o : JsObj) (k : String) (v : JsVal) : JsObj :=
  if o.any fun kv => kv.1 == k then
    o.map fun kv => if kv.1 == k then (k, v) else kv
  else
    o ++ [(k, v)]

/-- `delete o[k]`. -/
def objDelete (o : JsObj) (k : String) : JsObj :=
  o.filter fun kv => kv.1 != k

/-- `Object.assign(target, source)`: copies every property of `source`
into `target`, in source order. -/
def objAssign (target source : JsObj) : JsObj :=
  source.foldl (fun acc kv => objSet acc kv.1 kv.2) target

/-- `JSON.parse(JSON.stringify(o))` on a property bag: drops properties
whose value is `undefined`, keeps everything else (no functions occur in
the source configuration). -/
def jsonClone (o : JsObj) : JsObj :=
  o.filter fun kv => kv.2 != JsVal.undef

/-- One entry of the `models` catalog (source lines 63-123).  Only the
data fields are modelled; the per-model extractor functions are pure
accessors into the response object and are not needed by the claims.
`usage` is `none` for models whose descriptor declares no `usage` key
(notably `gpt-4`), and `params` is `none` for descriptors that declare
no `params` key (`davinci`, `curie`). -/
structure ModelDesc where
  family : String
  token_limit : Nat
  usage : Option String
  params : Option (List String)
  method : Option String
deriving DecidableEq, Repr

def gpt4Params : List String :=
  ["frequency_penalty", "presence_penalty", "max_tokens", "stop", "stream", "n",
   "top_p", "temperature", "logit_bias", "user"]

def davinci003Params : List String :=
  ["suffix", "frequency_penalty", "presence_penalty", "max_tokens", "stop", "stream",
   "n", "top_p", "temperature", "logit_bias", "logprobs", "echo", "best_of", "user"]

/-- The `models` property of the class, in declaration order. -/
def models : List (String × ModelDesc) :=
  [("gpt-4", ⟨"GPT-4", 4096, none, some gpt4Params, some "createChatCompletion"⟩),
   ("gpt-3.5-turbo", ⟨"GPT-3.5", 4096, some "chat", some gpt4Params, some "createChatCompletion"⟩),
   ("text-davinci-003", ⟨"GPT-3.5", 4096, some "query", some davinci003Params, some "createCompletion"⟩),
   ("davinci", ⟨"GPT-3", 2048, some "fine-tune", none, none⟩),
   ("curie", ⟨"GPT-3", 2048, some "fine-tune", none, none⟩)]

/-- `Math.max(...Object.values(this.models).map(m => m.token_limit))`,
the largest known model ceiling (line 326). -/
def maxModelTokenLimit : Nat :=
  (models.map fun p => p.2.token_limit).foldl max 0

/-- One history record (source line 435 and 450-451): created in `chat`
as `{ input, input_tokens, summarized: false }`, then completed with
`output` and `output_tokens`.  The optional later-attached per-turn
micro-summary is not needed by any claim and is omitted. -/
structure Turn where
  input : String
  output : String
  input_tokens : Nat
  output_tokens : Nat
  summarized : Bool
deriving DecidableEq, Repr

/-- The outcome of a JavaScript function call as observed by its caller:
a returned number, a returned `NaN`, or a thrown error. -/
inductive JsOutcome where
  | val (n : Nat)
  | nan
  | err (msg : String)
deriving DecidableEq, Repr

/-- `#countTokens(str)` (source lines 321-333).  The token-counting
oracle `encode(str).length` is modelled as a function returning
`Option Nat` (`none` when `encode` throws; an array length is a natural
number when it does not).  The whole body sits inside `try/catch`:

* a string argument passes the `typeof` guard; the oracle result is
  rejected (fallback used) when it is 0 (`!tokens`) or exceeds the
  largest known model ceiling, and the fallback is
  `Math.floor(str.length / 4)`;
* a non-string argument makes the function throw its own `TypeError`,
  which is caught by its own `catch`, whose fallback then evaluates
  `str.length`: an array has a numeric `length` (so a number is
  returned), numbers and booleans have no `length` property (so the
  fallback computes `Math.floor(undefined / 4) = NaN`), and reading
  `.length` of `null`/`undefined` throws a `TypeError` out of the
  `catch` block. -/
def countTokens (oracle : String → Option Nat) : JsVal → JsOutcome
  | .str s =>
    match oracle s with
    | some t => if t == 0 || t > maxModelTokenLimit then .val (s.length / 4) else .val t
    | none => .val (s.length / 4)
  | .arr xs => .val (xs.length / 4)
  | .num _ => .nan
  | .jsBool _ => .nan
  | .null => .err "TypeError: cannot read length of null"
  | .undef => .err "TypeError: cannot read length of undefined"

/-- One message of a chat-format request body: `{ role, content }`,
as produced by `#formatMessage('chat', role, content)` (line 383). -/
structure ChatMsg where
  role : String
  content : String
deriving DecidableEq, Repr

/-- `#getUnsummorizedHistory()` (source lines 395-403): a `for` loop
from `history.length - 1` down to `0` pushing every record whose
`summarized` is strictly equal to `false` — i.e. the records with
`summarized == false`, most recent first. -/
def getUnsummorizedHistory (history : List Turn) : List Turn :=
  history.reverse.filter fun t => t.summarized == false

/-- `#formatHistory('chat', history)` (source lines 414-420): for each
record it pushes the user message for `input` and then the assistant
message for `output` onto `formated`, and finally returns
`formated.reverse()` — the reverse of the flattened message list. -/
def formatHistoryChat (history : List Turn) : List ChatMsg :=
  (history.foldl (fun acc t =>
      acc ++ [ChatMsg.mk "user" t.input, ChatMsg.mk "assistant" t.output]) []).reverse

/-- The `body.messages` built by `chat` (source lines 442-444): a system
message holding `this.summary || "You are a helpful assistant."`, then
the formatted unsummarized history, then the current user message. -/
def renderChatMessages (summary : String) (history : List Turn) (input : String) :
    List ChatMsg :=
  ChatMsg.mk "system" (if summary == "" then "You are a helpful assistant." else summary)
    :: (formatHistoryChat (getUnsummorizedHistory history) ++ [ChatMsg.mk "user" input])

/-- `countHistoryTokens(history)` (source lines 404-413).  Note that the
loop iterates `this.history` — the whole session history — and not the
`history` argument; only the sanity guard and the error message consult
the argument.  The first explicit argument is `this.history`, the
second the `history` parameter. -/
def countHistoryTokens (selfHistory history : List Turn) : Except String Nat :=
  let total := selfHistory.foldl (fun tot r => tot + (r.input_tokens + r.output_tokens)) 0
  if total > 1000000 || (history.length != 0 && total == 0) then
    .error ("Something went wrong while counting the token history. From "
      ++ toString history.length ++ " turns we got " ++ toString total ++ " tokens")
  else
    .ok total

/-- The initial value of the private `#conf` property (source lines
140-154), with the default participant names `Human`/`AI` interpolated
into the stop sequences. -/
def initialConf : JsObj :=
  [("max_tokens", .num 1024),
   ("top_p", .num 1),
   ("temperature", .num 1),
   ("frequency_penalty", .num (1/10)),
   ("presence_penalty", .num (6/10)),
   ("stop", .arr [" Human:", " AI:"]),
   ("stream", .jsBool false),
   ("n", .num 1),
   ("logit_bias", .null),
   ("logprobs", .null),
   ("echo", .jsBool false),
   ("best_of", .num 1),
   ("suffix", .null)]

/-- `configure(conf)` (source lines 299-318).  Takes the current
persisted `#conf` and the incoming conf object; returns the new
persisted `#conf` and the deep copy of the old one that the method
returns.  The `max_tokens` guard compares against
`Math.max(...Object.values(this.models).map(m => m.max))`; no model
descriptor has a `max` property, so that maximum is `NaN`, the
comparison `conf.max_tokens > NaN` is always `false`, and a truthy
`max_tokens` is therefore always accepted and then deleted from the
incoming object before the blanket `Object.assign`. -/
def configure (selfConf confIn : JsObj) : JsObj × JsObj :=
  let oldConf := jsonClone selfConf
  let step :=
    match objGet confIn "max_tokens" with
    | some v =>
      if truthy v then (objSet selfConf "max_tokens" v, objDelete confIn "max_tokens")
      else (selfConf, confIn)
    | none => (selfConf, confIn)
  (objAssign step.1 step.2, oldConf)

/-- `createBody(model, tempConf)` (source lines 166-194).  Returns the
built body together with the persisted `#conf` as it stands after the
method returns.  When a truthy `tempConf` is passed, `configure` is
applied to it first (mutating `#conf`), the body is then populated from
the mutated `#conf` restricted to the model's declared `params` (a
property is copied when `#conf` owns it and its value is not `null`),
and finally `Object.assign(this.#conf, oldConf)` re-assigns the saved
properties.  Models without a `params` list (`davinci`, `curie`) make
the `for..of` loop throw. -/
def createBody (selfConf : JsObj) (model : String) (tempConf : Option JsObj) :
    Except String (JsObj × JsObj) :=
  match models.find? fun p => p.1 == model with
  | none => .error (model ++ " is not an engine/model that exists on OpenAI")
  | some entry =>
    match entry.2.params with
    | none => .error "TypeError: the params of this model are not iterable"
    | some params =>
      let st :=
        match tempConf with
        | some tc =>
          let r := configure selfConf tc
          (r.1, some r.2)
        | none => (selfConf, (none : Option JsObj))
      let body := params.foldl
        (fun b p =>
          match objGet st.1 p with
          | some v => if v != JsVal.null then objSet b p v else b
          | none => b)
        [("model", JsVal.str model)]
      let finalConf :=
        match st.2 with
        | some old => objAssign st.1 old
        | none => st.1
      .ok (body, finalConf)

/-- The usage-based fallback inside `#getModelName` (source lines
368-377): the first catalog model whose `usage` equals the requested
usage; failing that, the source evaluates
`this.models[Object.keys(this.models)[0]].name` — and model descriptors
have no `name` property, so the branch returns `undefined`, modelled as
`none`. -/
def defaultModelName (usage : String) : Option String :=
  match models.find? fun p => p.2.usage == some usage with
  | some p => some p.1
  | none => none

/-- `#getModelName(tempConf, usage)` (source lines 359-379).  The
`candidate` argument models `tempConf.model` when `tempConf` is an
object with a truthy `model` property (`none` otherwise): when the
candidate names a catalog model it is returned, otherwise the
usage-based fallback applies.  The result is `none` exactly when the
source returns `undefined`. -/
def getModelName (candidate : Option String) (usage : String) : Option String :=
  match candidate with
  | some m =>
    if (models.find? fun p => p.1 == m).isSome then some m
    else defaultModelName usage
  | none => defaultModelName usage

/-- `#adjustMaxExpectedResponseTokens(body)` (source lines 484-495),
abstracted over the already-computed prompt token count:
`token_limit` is `this.models[body.model].token_limit`, `tokens` is
`this.#countTokens(model.extractContent(body))`, and `max_tokens` is
the `max_tokens` property of the body (`none` when the body does not
own one, in which case no clamping happens).  The result is the
`max_tokens` field of the body after the call, or the thrown error. -/
def adjustMaxExpectedResponseTokens (token_limit tokens : Nat)
    (max_tokens : Option Nat) : Except String (Option Nat) :=
  if token_limit < tokens then
    .error ("The query is too big for the model: " ++ toString tokens
      ++ " vs " ++ toString token_limit)
  else
    match max_tokens with
    | some r =>
      if token_limit < tokens + r then .ok (some (token_limit - tokens))
      else .ok (some r)
    | none => .ok none

/-- The response-handling half of `#makeApiCall` (source lines 522-537),
given the extracted text (`model.extractResponse(response)`, already
trimmed by the extractor) and the finish reason.  An empty extracted
text throws, which the surrounding `catch` re-throws as a parse error;
a finish reason other than `stop` appends a visible warning marker to
the returned text. -/
def parseExtractedResponse (extracted finishReason : String) :
    Except String String :=
  if extracted.length == 0 then
    .error "Problems parsing the response from openai: the response was empty"
  else if finishReason != "stop" then
    .ok (extracted ++ "\n[WARNING: stopped generating output because \x27"
      ++ finishReason ++ "\x27]")
  else
    .ok extracted

/-- The label stripping in `summarize` (source lines 584-586): when the
returned summary starts with the assistant name, drop the name plus one
further character (`summary.slice(this.names.assistant.length + 1)`). -/
def stripLabel (assistantName text : String) : String :=
  if assistantName.data.isPrefixOf text.data then
    String.mk (text.data.drop (assistantName.length + 1))
  else
    text

/-- `history.forEach(obj => obj.summarized = true)` (source line 588):
the source mutates the turn objects referenced by the array passed to
`summarize`; those references are positions in `this.history`, modelled
here by the list of their indices.  `markSummarizedFrom i idxs l` marks
the elements of `l` whose absolute position (starting at `i`) is in
`idxs`. -/
def markSummarizedFrom (i : Nat) (idxs : List Nat) : List Turn → List Turn
  | [] => []
  | t :: ts =>
    (if i ∈ idxs then { t with summarized := true } else t)
      :: markSummarizedFrom (i + 1) idxs ts

def markSummarized (history : List Turn) (idxs : List Nat) : List Turn :=
  markSummarizedFrom 0 idxs history

/-- The mutable session state touched by `summarize`: the history array
and the running `summary` string. -/
structure SessionState where
  history : List Turn
  summary : String
deriving DecidableEq, Repr

/-- The state transition performed by `summarize(history, tokens)`
(source lines 564-592) around its backend call, for a set of turns
given by their indices `idxs` into the session history.  The prompt
construction before the call is pure (it reads but never writes state),
and every state mutation of the method sits inside the `.then` callback
of the `query` promise: when the backend call rejects the callback
never runs and the state is untouched; when it resolves with `text`,
the summary is replaced by `text` with a leading assistant-name label
stripped, and every turn passed in is marked `summarized = true`. -/
def summarizeStep (assistantName : String) (st : SessionState) (idxs : List Nat)
    (backendResult : Except String String) : SessionState :=
  match backendResult with
  | .error _ => st
  | .ok text =>
    { history := markSummarized st.history idxs
      summary := stripLabel assistantName text }

/-- Two concrete unsummarized turns, used as test data. -/
def turn1 : Turn := ⟨"q1", "r1", 1, 1, false⟩

def turn2 : Turn := ⟨"q2", "r2", 1, 1, false⟩

/-- A concrete already-summarized turn worth 200 tokens. -/
def turnA : Turn := ⟨"a", "b", 100, 100, true⟩

/-- A concrete unsummarized turn worth 20 tokens. -/
def turnB : Turn := ⟨"c", "d", 10, 10, false⟩

/-! ## Helper lemmas -/

/-- Every record returned by the unsummarized-history view has its
`summarized` flag equal to `false`. -/
theorem mem_getUnsummorized (l : List Turn) (t : Turn)
    (h : t ∈ getUnsummorizedHistory l) : t.summarized = false := by
  unfold getUnsummorizedHistory at h
  have h2 := (List.mem_filter.mp h).2
  simpa using h2

/-- A position whose absolute index is in `idxs` carries `summarized =
true` after `markSummarizedFrom`. -/
theorem markSummarizedFrom_get (idxs : List Nat) :
    ∀ (l : List Turn) (i j : Nat) (h : j < (markSummarizedFrom i idxs l).length),
      i + j ∈ idxs →
      ((markSummarizedFrom i idxs l).get ⟨j, h⟩).summarized = true := by
  intro l
  induction l with
  | nil => intro i j h; simp [markSummarizedFrom] at h
  | cons t ts ih =>
    intro i j h hmem
    cases j with
    | zero =>
      show ((if i ∈ idxs then { t with summarized := true } else t)).summarized = true
      rw [if_pos (by simpa using hmem)]
    | succ j' =>
      have hmem' : (i + 1) + j' ∈ idxs := by
        have heq : (i + 1) + j' = i + (j' + 1) := by omega
        rw [heq]; exact hmem
      exact ih (i + 1) j' (by simpa [markSummarizedFrom] using h) hmem'

/-! ## Claim theorems -/

/-- Claim C1, counterexample.  The claim states that a prompt whose
token count `P` satisfies `P >= C` makes the build fail with
`PromptTooLarge`; but the source guard is the strict comparison
`tokens > model.token_limit`, so at `P = C = 4096` with a requested
output of 1024 tokens the build does not fail — it clamps the
output-token field to `C - P = 0` and produces a request body. -/
theorem budget_clamp_counterexample :
    adjustMaxExpectedResponseTokens 4096 4096 (some 1024) = .ok (some 0) := rfl

/-- Claim C1, amended.  For a model ceiling `C`, prompt token count `P`
and requested output `R`: whenever `P <= C` and `P + R > C` the built
request carries output-token field `C - P`, and whenever `P > C`
(strictly) the build fails with the too-large error. -/
theorem budget_clamp_amended (C P R : Nat) :
    (P ≤ C → C < P + R →
      adjustMaxExpectedResponseTokens C P (some R) = .ok (some (C - P)))
    ∧ (C < P → ∃ msg, adjustMaxExpectedResponseTokens C P (some R) = .error msg) := by
  constructor
  · intro h1 h2
    unfold adjustMaxExpectedResponseTokens
    rw [if_neg (Nat.not_lt.mpr h1)]
    show (if C < P + R then Except.ok (some (C - P)) else Except.ok (some R)) = _
    rw [if_pos h2]
  · intro h
    exact ⟨"The query is too big for the model: " ++ toString P ++ " vs " ++ toString C,
      by unfold adjustMaxExpectedResponseTokens; rw [if_pos h]⟩

/-- Claim C1, witness for the amended theorem at ceiling 4096: a prompt
of 4000 tokens with 1024 requested gets clamped to 96, and a prompt of
5000 tokens fails. -/
theorem budget_clamp_amended_witness :
    adjustMaxExpectedResponseTokens 4096 4000 (some 1024) = .ok (some 96)
    ∧ (∃ msg, adjustMaxExpectedResponseTokens 4096 5000 (some 1) = .error msg) := by
  constructor
  · have h := (budget_clamp_amended 4096 4000 1024).1 (by decide) (by decide)
    simpa using h
  · exact (budget_clamp_amended 4096 5000 1).2 (by decide)

/-- Claim C2.  With two unsummarized turns (chronologically `turn1` then
`turn2`) the rendered chat messages place each assistant output
immediately BEFORE the user input of the same turn: the source reverses
the flattened message list instead of the turn list, so the claimed
user-before-assistant pairing is violated (the turn blocks themselves do
come out in chronological order). -/
theorem chat_history_order_bug :
    renderChatMessages "" [turn1, turn2] "hello" =
      [⟨"system", "You are a helpful assistant."⟩,
       ⟨"assistant", "r1"⟩, ⟨"user", "q1"⟩,
       ⟨"assistant", "r2"⟩, ⟨"user", "q2"⟩,
       ⟨"user", "hello"⟩] := by decide

/-- Claim C3.  `countHistoryTokens` sums `this.history`, not its
argument: with a session history holding a summarized 200-token turn
and an unsummarized 20-token turn, passing only the unsummarized turn
still returns 220 — the summarized turn contributes to the total even
though it is outside the passed sequence, contradicting the claim that
the total is 20. -/
theorem countHistoryTokens_ignores_argument :
    countHistoryTokens [turnA, turnB] [turnB] = .ok 220
    ∧ turnB.input_tokens + turnB.output_tokens = 20 := ⟨rfl, rfl⟩

/-- Claim C4, counterexample.  With the oracle failing on the 7-letter
string `abcdefg`, the source falls back to `Math.floor(7 / 4) = 1`,
while the claim demands `ceil(7 / 4) = 2`. -/
theorem fallback_estimator_counterexample :
    countTokens (fun _ => none) (.str "abcdefg") = .val 1
    ∧ ("abcdefg".length + 3) / 4 = 2 := by decide

/-- Claim C4, amended.  For every string, whenever the token-counting
oracle throws or yields zero or a value exceeding the largest known
model ceiling, the count returns `floor(length / 4)` (not the ceiling
of the quotient) and never propagates the failure (the function is
total on strings). -/
theorem fallback_estimator_floor (oracle : String → Option Nat) (s : String)
    (h : oracle s = none
      ∨ ∃ t, oracle s = some t ∧ (t = 0 ∨ maxModelTokenLimit < t)) :
    countTokens oracle (.str s) = .val (s.length / 4) := by
  have hdef : countTokens oracle (.str s) =
      match oracle s with
      | some t =>
        if t == 0 || t > maxModelTokenLimit then JsOutcome.val (s.length / 4)
        else JsOutcome.val t
      | none => JsOutcome.val (s.length / 4) := rfl
  rw [hdef]
  rcases h with h | ⟨t, ht, h0 | hl⟩
  · rw [h]
  · rw [ht, h0]
    simp
  · rw [ht]
    have hb : (t == 0 || decide (t > maxModelTokenLimit)) = true := by
      simp [hl]
    simp [hb]

/-- Claim C4, witness: a failing oracle on the 8-letter string of the
spec example gives `floor(8 / 4) = 2`. -/
theorem fallback_estimator_floor_witness :
    countTokens (fun _ => none) (.str "abcdefgh") = .val 2 := by
  have h := fallback_estimator_floor (fun _ => none) "abcdefgh" (Or.inl rfl)
  simpa using h

/-- Claim C5.  A non-string argument does NOT make the token counter
fail: the `TypeError` the source throws for non-strings sits inside the
same `try` whose `catch` swallows it, and the fallback then reads the
`length` property of the argument — for a 4-element array the call
returns the number 1 to its caller, for any oracle. -/
theorem countTokens_nonstring_returns_value (oracle : String → Option Nat) :
    countTokens oracle (.arr ["a", "b", "c", "d"]) = .val 1 := rfl

/-- Claim C6.  The catalog is non-empty, yet resolving with no candidate
and a usage matched by no catalog model (for example `edit`) returns
`undefined` (modelled `none`), not the first model of the catalog: the
fallback branch reads the non-existent `name` property of the first
model descriptor. -/
theorem getModelName_fallback_undefined :
    models ≠ [] ∧ getModelName none "edit" = none := by decide

/-- Claim C7.  Building a body for `gpt-4` with the one-shot override
`{ user: "bob" }` leaves the persisted configuration with a `user`
property it did not have before: the restore step re-assigns the saved
properties but never deletes keys the override added, so the persisted
configuration after the build differs from the one before. -/
theorem createBody_override_leaks :
    (createBody initialConf "gpt-4" (some [("user", JsVal.str "bob")])).map Prod.snd
      = .ok (initialConf ++ [("user", JsVal.str "bob")])
    ∧ initialConf ++ [("user", JsVal.str "bob")] ≠ initialConf := by
  constructor
  · rfl
  · intro h
    have hlen := congrArg List.length h
    simp [initialConf] at hlen

/-- Claim C8.  When the backend call inside `summarize` fails, the
session state is returned unchanged: every turn keeps its `summarized`
flag and the running summary is byte-for-byte identical, because all
mutations of the source method live inside the `.then` callback of the
backend promise, which never runs on rejection. -/
theorem summarize_failure_is_noop (assistantName e : String) (st : SessionState)
    (idxs : List Nat) : summarizeStep assistantName st idxs (.error e) = st := rfl

/-- Claim C9, counterexample.  A successful summarization whose backend
text is exactly the assistant name `AI` strips the leading label and
stores the EMPTY string as the running summary, refuting the claim that
the running summary is non-empty after every successful summarize. -/
theorem summarize_summary_can_be_empty :
    (summarizeStep "AI" ⟨[turn1], ""⟩ [0] (.ok "AI")).summary = "" := by decide

/-- Claim C9, amended.  After `summarize` succeeds on the turns at
indices `idxs` with backend text `text`, the running summary equals
`text` with a leading assistant-name label stripped (which can be
empty when the text is just the label), and every turn passed in has
`summarized = true` and is absent from the unsummarized-history view. -/
theorem summarize_success_partition (assistantName text : String)
    (st : SessionState) (idxs : List Nat) :
    ((summarizeStep assistantName st idxs (.ok text)).summary
        = stripLabel assistantName text)
    ∧ ∀ (j : Nat) (h : j < (summarizeStep assistantName st idxs (.ok text)).history.length),
        j ∈ idxs →
        (((summarizeStep assistantName st idxs (.ok text)).history.get ⟨j, h⟩).summarized = true
          ∧ (summarizeStep assistantName st idxs (.ok text)).history.get ⟨j, h⟩
              ∉ getUnsummorizedHistory (summarizeStep assistantName st idxs (.ok text)).history) := by
  constructor
  · rfl
  · intro j h hj
    have hflag : (((summarizeStep assistantName st idxs (.ok text)).history.get
        ⟨j, h⟩).summarized) = true :=
      markSummarizedFrom_get idxs st.history 0 j h (by simpa using hj)
    refine ⟨hflag, ?_⟩
    intro hmem
    have hfalse := mem_getUnsummorized _ _ hmem
    rw [hflag] at hfalse
    exact Bool.noConfusion hfalse

/-- Claim C9, witness: summarizing the single turn of a session with
backend text `Hi.` marks that turn summarized. -/
theorem summarize_success_partition_witness :
    ((summarizeStep "AI" ⟨[⟨"q", "r", 3, 4, false⟩], ""⟩ [0]
        (.ok "Hi.")).history.get ⟨0, by decide⟩).summarized = true := by
  have h := (summarize_success_partition "AI" "Hi." ⟨[⟨"q", "r", 3, 4, false⟩], ""⟩ [0]).2
      0 (by decide) (by decide)
  exact h.1

/-- Claim C10.  Response handling rejects when the extracted text is
empty, and whenever it resolves the returned string is non-empty (a
non-`stop` finish reason only appends a warning marker, which cannot
empty the text). -/
theorem resolved_response_nonempty :
    (∀ finishReason : String,
        ∃ msg, parseExtractedResponse "" finishReason = .error msg)
    ∧ ∀ (extracted finishReason out : String),
        parseExtractedResponse extracted finishReason = .ok out → out ≠ "" := by
  constructor
  · intro r
    exact ⟨_, rfl⟩
  · intro e r out h hout
    have hlen : out.length = 0 := by rw [hout]; rfl
    unfold parseExtractedResponse at h
    split at h
    · exact Except.noConfusion h
    · next hcond =>
      have he : e.length ≠ 0 := by
        intro h0
        exact hcond (by simp [h0])
      split at h
      · have hout2 := Except.ok.inj h
        rw [← hout2] at hlen
        simp [String.length_append] at hlen
        exact he hlen.1.1.1
      · have hout2 := Except.ok.inj h
        rw [← hout2] at hlen
        exact he hlen

/-- Claim C10, witness: the empty extracted text rejects, and the
extracted text `hi` with finish reason `stop` resolves to the non-empty
string `hi`. -/
theorem resolved_response_nonempty_witness :
    (∃ msg, parseExtractedResponse "" "stop" = .error msg)
    ∧ ("hi" : String) ≠ "" := by
  constructor
  · exact resolved_response_nonempty.1 "stop"
  · exact resolved_response_nonempty.2 "hi" "stop" "hi" rfl

end GptChat
